import Mathlib

/-!
Shallow embedding of the registration application: the validation rule set
(src/lib/validation.ts as imported by the registration form), the server-side
validation middleware, the registration form submission handler
(src/components/RegistrationForm.tsx), and the user persistence layer
(src/api/models/user.ts together with the express routes in
src/api/routes/users.ts).

JavaScript strings are modelled as `List Char`; result messages are Lean
`String` constants.  The regular expressions used by the source are modelled
by executable character-list matchers with the same semantics, spelled out
next to each definition.
-/

namespace Reg

/-- Whitespace test modelling the regex class backslash-s on ASCII input
(space, tab, newline, carriage return, vertical tab, form feed). -/
def isWsChar (c : Char) : Bool :=
  c == ' ' || c == '\t' || c == '\n' || c == '\r' || c == '\x0b' || c == '\x0c'

/-- ASCII lower-casing of one character, modelling the effect of
String.prototype.toLowerCase on each character. -/
def lowerChar (c : Char) : Char :=
  match c with
  | 'A' => 'a' | 'B' => 'b' | 'C' => 'c' | 'D' => 'd' | 'E' => 'e' | 'F' => 'f'
  | 'G' => 'g' | 'H' => 'h' | 'I' => 'i' | 'J' => 'j' | 'K' => 'k' | 'L' => 'l'
  | 'M' => 'm' | 'N' => 'n' | 'O' => 'o' | 'P' => 'p' | 'Q' => 'q' | 'R' => 'r'
  | 'S' => 's' | 'T' => 't' | 'U' => 'u' | 'V' => 'v' | 'W' => 'w' | 'X' => 'x'
  | 'Y' => 'y' | 'Z' => 'z' | other => other

/-- Model of String.prototype.trim: strip leading and trailing whitespace. -/
def trimStr (s : List Char) : List Char :=
  ((s.dropWhile isWsChar).reverse.dropWhile isWsChar).reverse

/-- Result record returned by every rule of the validation rule set
(interface ValidationResult in src/lib/validation.ts). -/
structure ValidationResult where
  isValid : Bool
  message : Option String
deriving DecidableEq, Repr

/-- One character of the bracketed class excluding whitespace and the at-sign,
used twice in the email format regex. -/
def plainChar (c : Char) : Bool :=
  !(isWsChar c) && c != '@'

/-- Scans a character list for a dot that is not in last position. -/
def hasDotNotLast : List Char → Bool
  | [] => false
  | [_] => false
  | c :: rest => c == '.' || hasDotNotLast rest

/-- The domain part of the format regex after the at-sign: some nonempty
prefix, a dot, and a nonempty suffix, i.e. a dot neither first nor last. -/
def domainShape : List Char → Bool
  | [] => false
  | _ :: rest => hasDotNotLast rest

/-- Match of the email format regex: a nonempty local part without whitespace
or at-signs, one at-sign, and a domain of the same character class containing
an inner dot. -/
def emailFormat (s : List Char) : Bool :=
  let lp := s.takeWhile (fun c => c != '@')
  match s.dropWhile (fun c => c != '@') with
  | '@' :: dom => !lp.isEmpty && lp.all plainChar && dom.all plainChar && domainShape dom
  | _ => false

/-- One character of the class letters, digits, dot, underscore, percent,
plus, minus used by the local part of the Gmail-only regex. -/
def gmailLocalChar (c : Char) : Bool :=
  c.isAlpha || c.isDigit || c == '.' || c == '_' || c == '%' || c == '+' || c == '-'

/-- Match of the case-insensitive Gmail-only regex: a nonempty local part over
`gmailLocalChar`, an at-sign, and the literal domain gmail.com in any case. -/
def gmailMatch (s : List Char) : Bool :=
  let lp := s.takeWhile (fun c => c != '@')
  match s.dropWhile (fun c => c != '@') with
  | '@' :: dom => !lp.isEmpty && lp.all gmailLocalChar && dom.map lowerChar == "gmail.com".data
  | _ => false

/-- The part of an address after the first at-sign (empty when there is none). -/
def domainPart (s : List Char) : List Char :=
  match s.dropWhile (fun c => c != '@') with
  | _ :: dom => dom
  | [] => []

/-- One character of the fixed special-character class of the password rule. -/
def isSpecialChar (c : Char) : Bool :=
  c == '!' || c == '@' || c == '#' || c == '$' || c == '%' || c == '^' ||
  c == '&' || c == '*' || c == '(' || c == ')' || c == ',' || c == '.' ||
  c == '?' || c == '\"' || c == ':' || c == '\x7b' || c == '\x7d' ||
  c == '|' || c == '<' || c == '>'

/-- Client rule validateFirstName (src/lib/validation.ts). -/
def validateFirstName (firstName : List Char) : ValidationResult :=
  if firstName.isEmpty then ⟨false, some "First name is required"⟩
  else if (trimStr firstName).length < 2 then
    ⟨false, some "First name must be at least 2 characters"⟩
  else ⟨true, none⟩

/-- Client rule validateLastName (src/lib/validation.ts). -/
def validateLastName (lastName : List Char) : ValidationResult :=
  if lastName.isEmpty then ⟨false, some "Last name is required"⟩
  else if (trimStr lastName).length < 2 then
    ⟨false, some "Last name must be at least 2 characters"⟩
  else ⟨true, none⟩

/-- Client rule validateEmail (src/lib/validation.ts): empty, format,
Gmail-only, then the reserved sentinel address, first failure winning. -/
def validateEmail (email : List Char) : ValidationResult :=
  if email.isEmpty then ⟨false, some "Email is required"⟩
  else if !(emailFormat email) then ⟨false, some "Please enter a valid email address"⟩
  else if !(gmailMatch email) then ⟨false, some "Only Gmail addresses are accepted"⟩
  else if email.map lowerChar == "test@gmail.com".data then
    ⟨false, some "This email address is already registered"⟩
  else ⟨true, none⟩

/-- Client rule validatePassword (src/lib/validation.ts): empty, minimum 8,
maximum 30, then one check per required character class in fixed order. -/
def validatePassword (password : List Char) : ValidationResult :=
  if password.isEmpty then ⟨false, some "Password is required"⟩
  else if password.length < 8 then ⟨false, some "Password must be at least 8 characters"⟩
  else if password.length > 30 then ⟨false, some "Password must not exceed 30 characters"⟩
  else if !(password.any Char.isUpper) then
    ⟨false, some "Password must contain at least one uppercase letter"⟩
  else if !(password.any Char.isLower) then
    ⟨false, some "Password must contain at least one lowercase letter"⟩
  else if !(password.any Char.isDigit) then
    ⟨false, some "Password must contain at least one number"⟩
  else if !(password.any isSpecialChar) then
    ⟨false, some "Password must contain at least one special character"⟩
  else ⟨true, none⟩

/-- Client rule validateConfirmPassword (src/lib/validation.ts, variant flow). -/
def validateConfirmPassword (password confirmPassword : List Char) : ValidationResult :=
  if confirmPassword.isEmpty then ⟨false, some "Please confirm your password"⟩
  else if password ≠ confirmPassword then ⟨false, some "Passwords do not match"⟩
  else ⟨true, none⟩

/-- Client rule validateTerms (src/lib/validation.ts, variant flow). -/
def validateTerms (accepted : Bool) : ValidationResult :=
  if !accepted then ⟨false, some "You must accept the terms and conditions"⟩
  else ⟨true, none⟩

/-- A calendar date, as produced by the getFullYear, getMonth and getDate
accessors of a Date value (month given 1-based here). -/
structure DateT where
  year : Nat
  month : Nat
  day : Nat
deriving DecidableEq, Repr

/-- Numeric value of a digit character. -/
def digitVal (c : Char) : Nat := c.toNat - '0'.toNat

/-- Model of Date parsing restricted to the ISO YYYY-MM-DD strings produced by
a date input control; every other string is treated as an unparsable date
(a NaN timestamp in the source). -/
def parseDate (s : List Char) : Option DateT :=
  match s with
  | [y1, y2, y3, y4, h1, m1, m2, h2, d1, d2] =>
    if h1 == '-' && h2 == '-' && y1.isDigit && y2.isDigit && y3.isDigit &&
        y4.isDigit && m1.isDigit && m2.isDigit && d1.isDigit && d2.isDigit then
      let mo := 10 * digitVal m1 + digitVal m2
      let da := 10 * digitVal d1 + digitVal d2
      if 1 ≤ mo && mo ≤ 12 && 1 ≤ da && da ≤ 31 then
        some ⟨1000 * digitVal y1 + 100 * digitVal y2 + 10 * digitVal y3 + digitVal y4, mo, da⟩
      else none
    else none
  | _ => none

/-- Strict lexicographic order on calendar dates. -/
def dateLt (a b : DateT) : Bool :=
  a.year < b.year ||
  (a.year == b.year && (a.month < b.month || (a.month == b.month && a.day < b.day)))

/-- Client rule validateDateOfBirth (src/lib/validation.ts, variant flow).
The source reads the current clock with new Date(); here `today` is that clock
value passed explicitly.  The source comparison of the parsed date against the
current instant holds, for a clock strictly inside the current day, exactly
when the parsed day is strictly after the current day, which is `dateLt today d`. -/
def validateDateOfBirth (dob : List Char) (today : DateT) : ValidationResult :=
  if dob.isEmpty then ⟨false, some "Date of birth is required"⟩
  else
    match parseDate dob with
    | none => ⟨false, some "Please enter a valid date"⟩
    | some d =>
      if dateLt today d then ⟨false, some "Date of birth must be in the past"⟩
      else
        let age : Int := (today.year : Int) - (d.year : Int)
        let monthDiff : Int := (today.month : Int) - (d.month : Int)
        let dayDiff : Int := (today.day : Int) - (d.day : Int)
        let actualAge : Int :=
          if monthDiff < 0 || (monthDiff == 0 && dayDiff < 0) then age - 1 else age
        if actualAge < 18 then ⟨false, some "You must be at least 18 years old"⟩
        else ⟨true, none⟩

/-! Server-side validation mirror (the middleware in front of the register
route).  A request body field is an `Option (List Char)`: `none` models an
absent or non-string JSON value, which the middleware rejects the same way as
an empty string. -/

/-- Server mirror rule for the first name: an error message, or none. -/
def srvValidateFirstName : Option (List Char) → Option String
  | none => some "First name is required"
  | some s =>
    if s.isEmpty then some "First name is required"
    else if (trimStr s).length < 2 then some "First name must be at least 2 characters"
    else if (trimStr s).length > 100 then some "First name must not exceed 100 characters"
    else none

/-- Server mirror rule for the last name. -/
def srvValidateLastName : Option (List Char) → Option String
  | none => some "Last name is required"
  | some s =>
    if s.isEmpty then some "Last name is required"
    else if (trimStr s).length < 2 then some "Last name must be at least 2 characters"
    else if (trimStr s).length > 100 then some "Last name must not exceed 100 characters"
    else none

/-- Server mirror rule for the email: the value is trimmed first, then the
same format, Gmail-only and sentinel checks as the client rule are applied. -/
def srvValidateEmail : Option (List Char) → Option String
  | none => some "Email is required"
  | some s =>
    if s.isEmpty then some "Email is required"
    else if !(emailFormat (trimStr s)) then some "Please enter a valid email address"
    else if !(gmailMatch (trimStr s)) then some "Only Gmail addresses are accepted"
    else if (trimStr s).map lowerChar == "test@gmail.com".data then
      some "This email address is already registered"
    else none

/-- Server mirror rule for the password. -/
def srvValidatePassword : Option (List Char) → Option String
  | none => some "Password is required"
  | some p =>
    if p.isEmpty then some "Password is required"
    else if p.length < 8 then some "Password must be at least 8 characters"
    else if p.length > 30 then some "Password must not exceed 30 characters"
    else if !(p.any Char.isUpper) then some "Password must contain at least one uppercase letter"
    else if !(p.any Char.isLower) then some "Password must contain at least one lowercase letter"
    else if !(p.any Char.isDigit) then some "Password must contain at least one number"
    else if !(p.any isSpecialChar) then some "Password must contain at least one special character"
    else none

deriving instance DecidableEq for Except

/-- A raw request body for the register route. -/
structure RawBody where
  firstName : Option (List Char)
  lastName : Option (List Char)
  email : Option (List Char)
  password : Option (List Char)
deriving DecidableEq, Repr

/-- The normalized body the middleware passes downstream on success. -/
structure NormBody where
  firstName : List Char
  lastName : List Char
  email : List Char
  password : List Char
deriving DecidableEq, Repr

/-- The field-tagged message list the validateRegistration middleware
collects, in rule order. -/
def regErrors (b : RawBody) : List (String × String) :=
  (match srvValidateFirstName b.firstName with
   | some m => [("firstName", m)] | none => []) ++
  (match srvValidateLastName b.lastName with
   | some m => [("lastName", m)] | none => []) ++
  (match srvValidateEmail b.email with
   | some m => [("email", m)] | none => []) ++
  (match srvValidatePassword b.password with
   | some m => [("password", m)] | none => [])

/-- The validateRegistration middleware: run the four mirror rules in order,
collect field-tagged messages, and either answer 400 with the list or pass
the body on with the three name and email fields trimmed. -/
def validateRegistration (b : RawBody) : Except (List (String × String)) NormBody :=
  if (regErrors b).isEmpty then
    Except.ok ⟨trimStr (b.firstName.getD []), trimStr (b.lastName.getD []),
               trimStr (b.email.getD []), b.password.getD []⟩
  else Except.error (regErrors b)

/-! User persistence gateway (src/api/models/user.ts) over an explicit store.
The database table is a list of rows; the unique constraint on the email
column is modelled inside the insert step of createUser. -/

/-- One persisted user row; the email column holds what the insert wrote. -/
structure UserRec where
  firstName : List Char
  lastName : List Char
  email : List Char
  password : List Char
deriving DecidableEq, Repr

/-- The users table. -/
abbrev Store := List UserRec

/-- findUserByEmail: select the first row whose email column equals the
lower-cased argument. -/
def findUserByEmail (st : Store) (e : List Char) : Option UserRec :=
  st.find? (fun u => u.email == e.map lowerChar)

/-- The two failure modes of createUser: the error thrown by its own
pre-check, and a raw unique-constraint violation surfaced by the insert. -/
inductive CreateErr
  | emailRegistered
  | dbUnique
deriving DecidableEq, Repr

/-- createUser: pre-check uniqueness, hash the password, insert with the
email lower-cased.  The pre-check runs against `checkSt` and the insert
against `insertSt`; the two differ exactly when a concurrent create committed
between the two steps.  The insert raises `dbUnique` when the unique
constraint on the email column is violated; the source has no handler for it. -/
def createUser (hash : List Char → List Char) (checkSt insertSt : Store)
    (input : NormBody) : Except CreateErr (Store × UserRec) :=
  if (findUserByEmail checkSt input.email).isSome then Except.error CreateErr.emailRegistered
  else if (findUserByEmail insertSt input.email).isSome then Except.error CreateErr.dbUnique
  else
    let u : UserRec :=
      ⟨input.firstName, input.lastName, input.email.map lowerChar, hash input.password⟩
    Except.ok (insertSt ++ [u], u)

/-- Responses of the register route. -/
inductive HttpResponse
  | created (u : UserRec)
  | badRequest (errs : List (String × String))
  | conflict (errs : List (String × String))
  | serverError
deriving DecidableEq, Repr

/-- The POST register route: middleware, then the handler, which maps the
thrown pre-check error to 409 with the duplicate shape and every other
thrown error to a generic 500.  The returned Bool records whether the
createUser operation of the gateway was invoked. -/
def postRegister (hash : List Char → List Char) (checkSt insertSt : Store)
    (b : RawBody) : HttpResponse × Store × Bool :=
  match validateRegistration b with
  | Except.error errs => (HttpResponse.badRequest errs, insertSt, false)
  | Except.ok nb =>
    match createUser hash checkSt insertSt nb with
    | Except.ok (st', u) => (HttpResponse.created u, st', true)
    | Except.error CreateErr.emailRegistered =>
      (HttpResponse.conflict [("email", "This email address is already registered")],
       insertSt, true)
    | Except.error CreateErr.dbUnique => (HttpResponse.serverError, insertSt, true)

/-- deleteUserByEmail: delete every row whose email column equals the
lower-cased argument, and report whether any row was deleted. -/
def deleteUserByEmail (st : Store) (e : List Char) : Store × Bool :=
  (st.filter (fun u => !(u.email == e.map lowerChar)),
   st.any (fun u => u.email == e.map lowerChar))

/-- Responses of the delete route. -/
inductive DeleteResponse
  | ok200
  | notFound404
deriving DecidableEq, Repr

/-- The DELETE users route: 404 when nothing was deleted, 200 otherwise. -/
def deleteRoute (st : Store) (e : List Char) : DeleteResponse × Store :=
  let r := deleteUserByEmail st e
  if r.2 then (DeleteResponse.ok200, r.1) else (DeleteResponse.notFound404, st)

/-! Registration form submission (src/components/RegistrationForm.tsx).
Component state is a record; the handleSubmit handler is a function from the
state and the outcome of the awaited network call to the state left behind,
together with what the run did (whether fetch was invoked, whether the
delayed reset was scheduled, and the sequence of values passed to
setFormState during the run). -/

/-- Names of the four form fields. -/
inductive FieldId
  | firstName
  | lastName
  | email
  | password
deriving DecidableEq, Repr

/-- The values of the four form fields. -/
structure FormDataR where
  firstName : List Char
  lastName : List Char
  email : List Char
  password : List Char
deriving DecidableEq, Repr

/-- The initial form data: every field empty. -/
def initialFormData : FormDataR := ⟨[], [], [], []⟩

/-- Field access by name. -/
def FormDataR.get (d : FormDataR) : FieldId → List Char
  | FieldId.firstName => d.firstName
  | FieldId.lastName => d.lastName
  | FieldId.email => d.email
  | FieldId.password => d.password

/-- The per-field error map. -/
structure FieldError where
  firstName : Option String
  lastName : Option String
  email : Option String
  password : Option String
deriving DecidableEq, Repr

/-- Error access by field name. -/
def errOf (e : FieldError) : FieldId → Option String
  | FieldId.firstName => e.firstName
  | FieldId.lastName => e.lastName
  | FieldId.email => e.email
  | FieldId.password => e.password

/-- The empty error map. -/
def noErrors : FieldError := ⟨none, none, none, none⟩

/-- Whether any field currently has an error. -/
def FieldError.hasAny (e : FieldError) : Bool :=
  e.firstName.isSome || e.lastName.isSome || e.email.isSome || e.password.isSome

/-- The touched-field set. -/
structure Touched where
  firstName : Bool
  lastName : Bool
  email : Bool
  password : Bool
deriving DecidableEq, Repr

/-- No field touched. -/
def noneTouched : Touched := ⟨false, false, false, false⟩

/-- Every field touched, as set by a submit attempt. -/
def allTouched : Touched := ⟨true, true, true, true⟩

/-- The four presentation states of the form. -/
inductive FormState
  | idle
  | warning
  | failure
  | success
deriving DecidableEq, Repr

/-- The whole component state. -/
structure FormST where
  formData : FormDataR
  errors : FieldError
  touched : Touched
  formState : FormState
  isSubmitting : Bool
deriving DecidableEq, Repr

/-- validateField: dispatch one field value to its rule. -/
def validateField (f : FieldId) (v : List Char) : ValidationResult :=
  match f with
  | FieldId.firstName => validateFirstName v
  | FieldId.lastName => validateLastName v
  | FieldId.email => validateEmail v
  | FieldId.password => validatePassword v

/-- The message recorded for one field by validateForm: the rule message when
the rule fails, nothing when it passes. -/
def fieldMsg (f : FieldId) (v : List Char) : Option String :=
  let r := validateField f v
  if r.isValid then none else r.message

/-- The fresh error map built by validateForm over all fields. -/
def validateFormErrors (d : FormDataR) : FieldError :=
  ⟨fieldMsg FieldId.firstName d.firstName, fieldMsg FieldId.lastName d.lastName,
   fieldMsg FieldId.email d.email, fieldMsg FieldId.password d.password⟩

/-- Outcome of the awaited fetch of the register endpoint, as the handler
distinguishes them: a response with ok status and success flag; a non-success
response whose body carries an errors array; a non-success response without
one; or a thrown transport error. -/
inductive FetchOutcome
  | success
  | failureWith (errs : List (FieldId × String))
  | failurePlain
  | thrown
deriving DecidableEq, Repr

/-- Record one server-reported field error into the fresh map being built. -/
def applyErrItem (e : FieldError) : FieldId × String → FieldError
  | (FieldId.firstName, m) => ⟨some m, e.lastName, e.email, e.password⟩
  | (FieldId.lastName, m) => ⟨e.firstName, some m, e.email, e.password⟩
  | (FieldId.email, m) => ⟨e.firstName, e.lastName, some m, e.password⟩
  | (FieldId.password, m) => ⟨e.firstName, e.lastName, e.email, some m⟩

/-- The error map built from a server-reported errors array. -/
def applyErrList (l : List (FieldId × String)) : FieldError :=
  l.foldl applyErrItem noErrors

/-- Everything one run of handleSubmit did. -/
structure SubmitResult where
  final : FormST
  fetchCalled : Bool
  resetScheduled : Bool
  states : List FormState
deriving DecidableEq, Repr

/-- One run of handleSubmit: re-entry guard; mark submitting and set state
idle; validate all fields, touching all of them; on any failure set state
failure and return without fetching; otherwise set state warning, fetch, and
fold the outcome back; the submitting flag is cleared on every path. -/
def handleSubmit (st : FormST) (o : FetchOutcome) : SubmitResult :=
  if st.isSubmitting then ⟨st, false, false, []⟩
  else
    let errs := validateFormErrors st.formData
    if errs.hasAny then
      ⟨⟨st.formData, errs, allTouched, FormState.failure, false⟩, false, false,
       [FormState.idle, FormState.failure]⟩
    else
      match o with
      | FetchOutcome.success =>
        ⟨⟨st.formData, errs, allTouched, FormState.success, false⟩, true, true,
         [FormState.idle, FormState.warning, FormState.success]⟩
      | FetchOutcome.failureWith l =>
        ⟨⟨st.formData, applyErrList l, allTouched, FormState.failure, false⟩, true, false,
         [FormState.idle, FormState.warning, FormState.failure]⟩
      | FetchOutcome.failurePlain =>
        ⟨⟨st.formData, ⟨none, none, some "An error occurred during registration", none⟩,
          allTouched, FormState.failure, false⟩, true, false,
         [FormState.idle, FormState.warning, FormState.failure]⟩
      | FetchOutcome.thrown =>
        ⟨⟨st.formData, ⟨none, none, some "Unable to connect to server. Please try again.", none⟩,
          allTouched, FormState.failure, false⟩, true, false,
         [FormState.idle, FormState.warning, FormState.failure]⟩

/-- The setTimeout callback scheduled on success: reset the form data, the
errors, the touched set and the state after the fixed display delay. -/
def resetAfterDelay (st : FormST) : FormST :=
  ⟨initialFormData, noErrors, noneTouched, FormState.idle, st.isSubmitting⟩

/-- Shape of a rule result as the rule contract states it: valid with no
message, or invalid with some message. -/
def wellFormedResult (r : ValidationResult) : Prop :=
  (r.isValid = true ∧ r.message = none) ∨ (r.isValid = false ∧ r.message.isSome = true)

/-! Helper lemmas: the character tests of the email matchers are invariant
under ASCII lower-casing, hence so are the format and Gmail-only matchers. -/

theorem isWsChar_lowerChar (c : Char) : isWsChar (lowerChar c) = isWsChar c := by
  unfold lowerChar
  split
  all_goals rfl

theorem lowerChar_beq_at (c : Char) : (lowerChar c == '@') = (c == '@') := by
  unfold lowerChar
  split
  all_goals rfl

theorem lowerChar_bne_at (c : Char) : (lowerChar c != '@') = (c != '@') := by
  simp only [bne, lowerChar_beq_at]

theorem lowerChar_beq_dot (c : Char) : (lowerChar c == '.') = (c == '.') := by
  unfold lowerChar
  split
  all_goals rfl

theorem plainChar_lowerChar (c : Char) : plainChar (lowerChar c) = plainChar c := by
  unfold plainChar
  rw [isWsChar_lowerChar, lowerChar_bne_at]

theorem gmailLocalChar_lowerChar (c : Char) :
    gmailLocalChar (lowerChar c) = gmailLocalChar c := by
  unfold lowerChar gmailLocalChar
  split
  all_goals rfl

theorem lowerChar_idem (c : Char) : lowerChar (lowerChar c) = lowerChar c := by
  have h : lowerChar c = c ∨
      (lowerChar c = 'a' ∨ lowerChar c = 'b' ∨ lowerChar c = 'c' ∨ lowerChar c = 'd' ∨
       lowerChar c = 'e' ∨ lowerChar c = 'f' ∨ lowerChar c = 'g' ∨ lowerChar c = 'h' ∨
       lowerChar c = 'i' ∨ lowerChar c = 'j' ∨ lowerChar c = 'k' ∨ lowerChar c = 'l' ∨
       lowerChar c = 'm' ∨ lowerChar c = 'n' ∨ lowerChar c = 'o' ∨ lowerChar c = 'p' ∨
       lowerChar c = 'q' ∨ lowerChar c = 'r' ∨ lowerChar c = 's' ∨ lowerChar c = 't' ∨
       lowerChar c = 'u' ∨ lowerChar c = 'v' ∨ lowerChar c = 'w' ∨ lowerChar c = 'x' ∨
       lowerChar c = 'y' ∨ lowerChar c = 'z') := by
    unfold lowerChar
    split
    all_goals simp
  rcases h with h | h
  · rw [h]; exact h
  · rcases h with h | h | h | h | h | h | h | h | h | h | h | h | h | h | h | h | h | h |
      h | h | h | h | h | h | h | h <;> rw [h] <;> rfl

theorem bne_at_comp : ((fun c => c != '@') ∘ lowerChar) = (fun c : Char => c != '@') := by
  funext c
  simp only [Function.comp_apply]
  exact lowerChar_bne_at c

theorem plainChar_comp : (plainChar ∘ lowerChar) = plainChar := by
  funext c
  simp only [Function.comp_apply]
  exact plainChar_lowerChar c

theorem gmailLocalChar_comp : (gmailLocalChar ∘ lowerChar) = gmailLocalChar := by
  funext c
  simp only [Function.comp_apply]
  exact gmailLocalChar_lowerChar c

theorem lowerChar_comp_self : (lowerChar ∘ lowerChar) = lowerChar := by
  funext c
  simp only [Function.comp_apply]
  exact lowerChar_idem c

theorem map_lowerChar_isEmpty (l : List Char) : (l.map lowerChar).isEmpty = l.isEmpty := by
  cases l <;> rfl

theorem hasDotNotLast_map_lower : ∀ l : List Char,
    hasDotNotLast (l.map lowerChar) = hasDotNotLast l
  | [] => rfl
  | [_] => rfl
  | c :: d :: rest => by
    have ih := hasDotNotLast_map_lower (d :: rest)
    simp only [List.map_cons] at ih ⊢
    simp only [hasDotNotLast]
    rw [ih, lowerChar_beq_dot]

theorem domainShape_map_lower (l : List Char) :
    domainShape (l.map lowerChar) = domainShape l := by
  cases l with
  | nil => rfl
  | cons x xs =>
    simp only [List.map_cons, domainShape]
    exact hasDotNotLast_map_lower xs

theorem afterAt_shape (s : List Char) :
    s.dropWhile (fun c => c != '@') = [] ∨
    ∃ dom, s.dropWhile (fun c => c != '@') = '@' :: dom := by
  cases h : s.dropWhile (fun c => c != '@') with
  | nil => exact Or.inl rfl
  | cons x xs =>
    have hx := List.head?_dropWhile_not (fun c => c != '@') s
    rw [h] at hx
    simp at hx
    exact Or.inr ⟨xs, by rw [hx]⟩

theorem emailFormat_eq_false_of_nil (s : List Char)
    (h : s.dropWhile (fun c => c != '@') = []) : emailFormat s = false := by
  unfold emailFormat
  rw [h]

theorem emailFormat_eq_of_afterAt (s dom : List Char)
    (h : s.dropWhile (fun c => c != '@') = '@' :: dom) :
    emailFormat s =
      (!(s.takeWhile (fun c => c != '@')).isEmpty &&
       (s.takeWhile (fun c => c != '@')).all plainChar &&
       dom.all plainChar && domainShape dom) := by
  unfold emailFormat
  rw [h]
  rfl

theorem gmailMatch_eq_false_of_nil (s : List Char)
    (h : s.dropWhile (fun c => c != '@') = []) : gmailMatch s = false := by
  unfold gmailMatch
  rw [h]

theorem gmailMatch_eq_of_afterAt (s dom : List Char)
    (h : s.dropWhile (fun c => c != '@') = '@' :: dom) :
    gmailMatch s =
      (!(s.takeWhile (fun c => c != '@')).isEmpty &&
       (s.takeWhile (fun c => c != '@')).all gmailLocalChar &&
       (dom.map lowerChar == "gmail.com".data)) := by
  unfold gmailMatch
  rw [h]
  rfl

theorem dropWhile_at_map_lower (s : List Char) :
    (s.map lowerChar).dropWhile (fun c => c != '@') =
      (s.dropWhile (fun c => c != '@')).map lowerChar := by
  rw [List.dropWhile_map, bne_at_comp]

theorem takeWhile_at_map_lower (s : List Char) :
    (s.map lowerChar).takeWhile (fun c => c != '@') =
      (s.takeWhile (fun c => c != '@')).map lowerChar := by
  rw [List.takeWhile_map, bne_at_comp]

theorem emailFormat_map_lower (s : List Char) :
    emailFormat (s.map lowerChar) = emailFormat s := by
  rcases afterAt_shape s with h | ⟨dom, h⟩
  · have h2 : (s.map lowerChar).dropWhile (fun c => c != '@') = [] := by
      rw [dropWhile_at_map_lower, h]
      rfl
    rw [emailFormat_eq_false_of_nil _ h2, emailFormat_eq_false_of_nil _ h]
  · have h2 : (s.map lowerChar).dropWhile (fun c => c != '@') = '@' :: dom.map lowerChar := by
      rw [dropWhile_at_map_lower, h]
      rfl
    rw [emailFormat_eq_of_afterAt _ _ h2, emailFormat_eq_of_afterAt _ _ h,
        takeWhile_at_map_lower]
    simp only [map_lowerChar_isEmpty, List.all_map, plainChar_comp, domainShape_map_lower]

theorem gmailMatch_map_lower (s : List Char) :
    gmailMatch (s.map lowerChar) = gmailMatch s := by
  rcases afterAt_shape s with h | ⟨dom, h⟩
  · have h2 : (s.map lowerChar).dropWhile (fun c => c != '@') = [] := by
      rw [dropWhile_at_map_lower, h]
      rfl
    rw [gmailMatch_eq_false_of_nil _ h2, gmailMatch_eq_false_of_nil _ h]
  · have h2 : (s.map lowerChar).dropWhile (fun c => c != '@') = '@' :: dom.map lowerChar := by
      rw [dropWhile_at_map_lower, h]
      rfl
    rw [gmailMatch_eq_of_afterAt _ _ h2, gmailMatch_eq_of_afterAt _ _ h,
        takeWhile_at_map_lower]
    simp only [map_lowerChar_isEmpty, List.all_map, gmailLocalChar_comp, List.map_map,
        lowerChar_comp_self]

/-! Client rule against server mirror rule, per field. -/

theorem password_mirror_message (p : List Char) :
    (validatePassword p).message = srvValidatePassword (some p) := by
  unfold validatePassword
  simp only [srvValidatePassword]
  split_ifs <;> rfl

theorem password_mirror_verdict (p : List Char) :
    (validatePassword p).isValid = (srvValidatePassword (some p)).isNone := by
  unfold validatePassword
  simp only [srvValidatePassword]
  split_ifs <;> rfl

theorem email_mirror_message (e : List Char) (h : trimStr e = e) :
    (validateEmail e).message = srvValidateEmail (some e) := by
  unfold validateEmail
  simp only [srvValidateEmail]
  rw [h]
  split_ifs <;> rfl

theorem email_mirror_verdict (e : List Char) (h : trimStr e = e) :
    (validateEmail e).isValid = (srvValidateEmail (some e)).isNone := by
  unfold validateEmail
  simp only [srvValidateEmail]
  rw [h]
  split_ifs <;> rfl

/-- C1 (amended): for every password value the client rule and the server
mirror rule agree in verdict and message, and for every email value without
leading or trailing whitespace they agree as well.  As frozen the claim fails
for email values with surrounding whitespace: the mirror trims the email
before its format, Gmail-only and sentinel checks while the client rule does
not, and the counterexample records a value the client rejects and the mirror
accepts. -/
theorem C1_mirror_agreement (p e : List Char) (h : trimStr e = e) :
    (validatePassword p).message = srvValidatePassword (some p) ∧
    (validatePassword p).isValid = (srvValidatePassword (some p)).isNone ∧
    (validateEmail e).message = srvValidateEmail (some e) ∧
    (validateEmail e).isValid = (srvValidateEmail (some e)).isNone :=
  ⟨password_mirror_message p, password_mirror_verdict p,
   email_mirror_message e h, email_mirror_verdict e h⟩

/-- Witness for C1: the agreement instantiated at a concrete password and a
concrete whitespace-free email. -/
theorem C1_mirror_agreement_witness :
    (validatePassword "Password1!".data).message =
      srvValidatePassword (some "Password1!".data) ∧
    (validateEmail "a@gmail.com".data).message =
      srvValidateEmail (some "a@gmail.com".data) :=
  ⟨(C1_mirror_agreement "Password1!".data "a@gmail.com".data (by decide)).1,
   (C1_mirror_agreement "Password1!".data "a@gmail.com".data (by decide)).2.2.1⟩

/-- Counterexample refuting C1 as frozen: on the email value with one leading
space the client rule rejects with the format message while the server mirror
accepts it, so the two sites disagree on this field value. -/
theorem C1_mirror_counterexample :
    (validateEmail " a@gmail.com".data).isValid = false ∧
    (validateEmail " a@gmail.com".data).message = some "Please enter a valid email address" ∧
    srvValidateEmail (some " a@gmail.com".data) = none := by decide

/-- C2 (confirmed): the email rule fails with the already-registered message
exactly when the lower-cased value is the sentinel address, and every
well-formed address whose part after the at-sign is not gmail.com up to case
fails with the Gmail-only message; both checks sit behind the empty and
format checks with the first failure winning, which the proof traverses. -/
theorem C2_sentinel_and_gmail_only (e : List Char) :
    (validateEmail e = ⟨false, some "This email address is already registered"⟩ ↔
      e.map lowerChar = "test@gmail.com".data) ∧
    (emailFormat e = true →
      (domainPart e).map lowerChar ≠ "gmail.com".data →
      validateEmail e = ⟨false, some "Only Gmail addresses are accepted"⟩) := by
  constructor
  · constructor
    · intro h
      unfold validateEmail at h
      split_ifs at h with h1 h2 h3 h4
      · exact absurd h (by decide)
      · exact absurd h (by decide)
      · exact absurd h (by decide)
      · exact eq_of_beq h4
      · exact absurd h (by decide)
    · intro h
      have hne : e.isEmpty = false := by
        cases e with
        | nil => exact absurd h (by decide)
        | cons x xs => rfl
      have hfmt : emailFormat e = true := by
        rw [← emailFormat_map_lower, h]
        decide
      have hgm : gmailMatch e = true := by
        rw [← gmailMatch_map_lower, h]
        decide
      unfold validateEmail
      simp [hne, hfmt, hgm, h]
  · intro hf hd
    rcases afterAt_shape e with hsh | ⟨dom, hsh⟩
    · rw [emailFormat_eq_false_of_nil e hsh] at hf
      exact absurd hf (by decide)
    · have hdp : domainPart e = dom := by
        unfold domainPart
        rw [hsh]
      rw [hdp] at hd
      have hgm : gmailMatch e = false := by
        rw [gmailMatch_eq_of_afterAt e dom hsh]
        have : (dom.map lowerChar == "gmail.com".data) = false := by
          simp [hd]
        simp [this]
      have hne : e.isEmpty = false := by
        cases e with
        | nil =>
          rw [show ([] : List Char).dropWhile (fun c => c != '@') = [] from rfl] at hsh
          exact absurd hsh (by simp)
        | cons x xs => rfl
      unfold validateEmail
      simp [hne, hf, hgm]

/-- Witness for C2: the sentinel in upper case fails as already registered,
and a well-formed non-Gmail address fails with the Gmail-only message. -/
theorem C2_sentinel_witness :
    validateEmail "TEST@GMAIL.COM".data =
      ⟨false, some "This email address is already registered"⟩ ∧
    validateEmail "user.name@yahoo.com".data =
      ⟨false, some "Only Gmail addresses are accepted"⟩ :=
  ⟨(C2_sentinel_and_gmail_only "TEST@GMAIL.COM".data).1.mpr (by decide),
   (C2_sentinel_and_gmail_only "user.name@yahoo.com".data).2 (by decide) (by decide)⟩

/-- C3 (amended): a nonempty password shorter than 8 fails with the length
message, one longer than 30 fails with the upper-bound message, and inside
the 8 to 30 band a password with all four character classes passes while one
with a missing class reports the first missing class in the order uppercase,
lowercase, digit, special.  As frozen the claim fails only at the empty
password, which the source rejects with the required message rather than the
length message; see the counterexample. -/
theorem C3_password_rules (p : List Char) :
    (p ≠ [] → p.length < 8 →
      validatePassword p = ⟨false, some "Password must be at least 8 characters"⟩) ∧
    (p.length > 30 →
      validatePassword p = ⟨false, some "Password must not exceed 30 characters"⟩) ∧
    (8 ≤ p.length → p.length ≤ 30 →
      ((p.any Char.isUpper = true → p.any Char.isLower = true → p.any Char.isDigit = true →
          p.any isSpecialChar = true → validatePassword p = ⟨true, none⟩) ∧
       (p.any Char.isUpper = false →
          validatePassword p =
            ⟨false, some "Password must contain at least one uppercase letter"⟩) ∧
       (p.any Char.isUpper = true → p.any Char.isLower = false →
          validatePassword p =
            ⟨false, some "Password must contain at least one lowercase letter"⟩) ∧
       (p.any Char.isUpper = true → p.any Char.isLower = true → p.any Char.isDigit = false →
          validatePassword p =
            ⟨false, some "Password must contain at least one number"⟩) ∧
       (p.any Char.isUpper = true → p.any Char.isLower = true → p.any Char.isDigit = true →
          p.any isSpecialChar = false →
          validatePassword p =
            ⟨false, some "Password must contain at least one special character"⟩))) := by
  have hne : p ≠ [] → p.isEmpty = false := by
    intro h
    cases p with
    | nil => exact absurd rfl h
    | cons x xs => rfl
  refine ⟨?_, ?_, ?_⟩
  · intro h1 h2
    unfold validatePassword
    simp [hne h1, h2]
  · intro h
    have h0 : p ≠ [] := by
      intro he
      rw [he] at h
      exact absurd h (by decide)
    unfold validatePassword
    simp [hne h0, show ¬ p.length < 8 by omega, h]
  · intro h8 h30
    have h0 : p ≠ [] := by
      intro he
      rw [he] at h8
      exact absurd h8 (by decide)
    have hl8 : ¬ p.length < 8 := by omega
    have hl30 : ¬ p.length > 30 := by omega
    have hemp : ¬ (p.isEmpty = true) := by simp [hne h0]
    refine ⟨?_, ?_, ?_, ?_, ?_⟩
    · intro hu hl hd hs
      unfold validatePassword
      rw [if_neg hemp, if_neg hl8, if_neg hl30, if_neg (by simp [hu]),
          if_neg (by simp [hl]), if_neg (by simp [hd]), if_neg (by simp [hs])]
    · intro hu
      unfold validatePassword
      rw [if_neg hemp, if_neg hl8, if_neg hl30, if_pos (by simp [hu])]
    · intro hu hl
      unfold validatePassword
      rw [if_neg hemp, if_neg hl8, if_neg hl30, if_neg (by simp [hu]),
          if_pos (by simp [hl])]
    · intro hu hl hd
      unfold validatePassword
      rw [if_neg hemp, if_neg hl8, if_neg hl30, if_neg (by simp [hu]),
          if_neg (by simp [hl]), if_pos (by simp [hd])]
    · intro hu hl hd hs
      unfold validatePassword
      rw [if_neg hemp, if_neg hl8, if_neg hl30, if_neg (by simp [hu]),
          if_neg (by simp [hl]), if_neg (by simp [hd]), if_pos (by simp [hs])]

/-- Witness for C3: boundary and class instances of the amended claim. -/
theorem C3_password_rules_witness :
    validatePassword "Pass1!".data =
      ⟨false, some "Password must be at least 8 characters"⟩ ∧
    validatePassword "Password1!Password1!Password1!1".data =
      ⟨false, some "Password must not exceed 30 characters"⟩ ∧
    validatePassword "Password1!".data = ⟨true, none⟩ ∧
    validatePassword "password1!".data =
      ⟨false, some "Password must contain at least one uppercase letter"⟩ :=
  ⟨(C3_password_rules _).1 (by decide) (by decide),
   (C3_password_rules _).2.1 (by decide),
   ((C3_password_rules _).2.2 (by decide) (by decide)).1 (by decide) (by decide)
     (by decide) (by decide),
   ((C3_password_rules _).2.2 (by decide) (by decide)).2.1 (by decide)⟩

/-- Counterexample refuting C3 as frozen at the empty password: its length is
below 8, yet the source fails it with the required message, not the length
message. -/
theorem C3_empty_password_counterexample :
    "".data.length < 8 ∧
    validatePassword "".data ≠ ⟨false, some "Password must be at least 8 characters"⟩ ∧
    validatePassword "".data = ⟨false, some "Password is required"⟩ := by decide

/-- C4 (confirmed): when the submitting flag is clear and some field rule
fails on the current values, a submit run touches all fields, records per
field exactly the failing rule message, sets the state to failure, and
returns without invoking the external registration call or scheduling a
reset. -/
theorem C4_invalid_submit (st : FormST) (o : FetchOutcome)
    (hs : st.isSubmitting = false)
    (hv : (validateFormErrors st.formData).hasAny = true) :
    (handleSubmit st o).fetchCalled = false ∧
    (handleSubmit st o).resetScheduled = false ∧
    (handleSubmit st o).final.formState = FormState.failure ∧
    (handleSubmit st o).final.touched = allTouched ∧
    (∀ f : FieldId, errOf (handleSubmit st o).final.errors f =
      (if (validateField f (st.formData.get f)).isValid then none
       else (validateField f (st.formData.get f)).message)) := by
  have h1 : handleSubmit st o =
      ⟨⟨st.formData, validateFormErrors st.formData, allTouched, FormState.failure, false⟩,
       false, false, [FormState.idle, FormState.failure]⟩ := by
    simp [handleSubmit, hs, hv]
  rw [h1]
  refine ⟨rfl, rfl, rfl, rfl, ?_⟩
  intro f
  cases f <;> rfl

/-- Witness for C4: the entirely empty form is rejected without a fetch and
ends in the failure state. -/
theorem C4_invalid_submit_witness :
    (handleSubmit ⟨initialFormData, noErrors, noneTouched, FormState.idle, false⟩
       FetchOutcome.success).fetchCalled = false ∧
    (handleSubmit ⟨initialFormData, noErrors, noneTouched, FormState.idle, false⟩
       FetchOutcome.success).final.formState = FormState.failure :=
  ⟨(C4_invalid_submit _ _ (by decide) (by decide)).1,
   (C4_invalid_submit _ _ (by decide) (by decide)).2.2.1⟩

/-- C6 (confirmed): in every non-re-entrant run of the submit handler, the
success state appears only on a success response and only in the trace idle,
warning, success; whenever the fetch is made the run has set idle then
warning before it; and whenever the run ends in success the delayed reset is
scheduled and firing it returns the machine to idle with the form data, the
errors and the touched set back at their initial values. -/
theorem C6_success_only_via_warning (st : FormST) (o : FetchOutcome)
    (hs : st.isSubmitting = false) :
    (FormState.success ∈ (handleSubmit st o).states →
      o = FetchOutcome.success ∧
      (handleSubmit st o).states =
        [FormState.idle, FormState.warning, FormState.success]) ∧
    ((handleSubmit st o).fetchCalled = true →
      (handleSubmit st o).states.take 2 = [FormState.idle, FormState.warning]) ∧
    ((handleSubmit st o).final.formState = FormState.success →
      (handleSubmit st o).resetScheduled = true ∧
      resetAfterDelay (handleSubmit st o).final =
        ⟨initialFormData, noErrors, noneTouched, FormState.idle, false⟩) := by
  by_cases hv : (validateFormErrors st.formData).hasAny = true
  · simp [handleSubmit, hs, hv, resetAfterDelay]
  · cases o <;> simp [handleSubmit, hs, hv, resetAfterDelay]

/-- Witness for C6: a fully valid submission with a success response yields
exactly the trace idle, warning, success. -/
theorem C6_success_only_via_warning_witness :
    (handleSubmit ⟨⟨"John".data, "Doe".data, "john@gmail.com".data, "Password1!".data⟩,
        noErrors, noneTouched, FormState.idle, false⟩ FetchOutcome.success).states =
      [FormState.idle, FormState.warning, FormState.success] :=
  ((C6_success_only_via_warning _ _ (by decide)).1 (by decide)).2

/-- C7 (confirmed): a submit run started while the submitting flag is set
changes nothing, fetches nothing and schedules nothing; and every run started
with the flag clear finishes with the flag clear again, on the re-validation
failure path and on each of the four fetch outcomes alike. -/
theorem C7_submitting_flag (st : FormST) (o : FetchOutcome) :
    (st.isSubmitting = true →
      (handleSubmit st o).final = st ∧
      (handleSubmit st o).fetchCalled = false ∧
      (handleSubmit st o).resetScheduled = false ∧
      (handleSubmit st o).states = []) ∧
    (st.isSubmitting = false → (handleSubmit st o).final.isSubmitting = false) := by
  constructor
  · intro hs
    simp [handleSubmit, hs]
  · intro hs
    by_cases hv : (validateFormErrors st.formData).hasAny = true
    · simp [handleSubmit, hs, hv]
    · cases o <;> simp [handleSubmit, hs, hv]

/-- Witness for C7: the no-op of a re-entrant call and the cleared flag of a
completed call, at concrete states. -/
theorem C7_submitting_flag_witness :
    (handleSubmit ⟨initialFormData, noErrors, noneTouched, FormState.idle, true⟩
        FetchOutcome.thrown).states = [] ∧
    (handleSubmit ⟨initialFormData, noErrors, noneTouched, FormState.idle, false⟩
        FetchOutcome.thrown).final.isSubmitting = false :=
  ⟨((C7_submitting_flag _ _).1 rfl).2.2.2, (C7_submitting_flag _ _).2 rfl⟩

/-- C8 (amended): every rule of the rule set is total and returns either a
valid result with no message or an invalid result carrying a message; the
name, email, password, confirm-password and terms rules are functions of
their field values alone, while the date-of-birth rule is a function of the
date string and the current clock date together.  As frozen the claim fails,
because the source of validateDateOfBirth reads the clock: the counterexample
shows one date string receiving different verdicts under two clock dates. -/
theorem C8_rules_shape (s p cp dob : List Char) (b : Bool) (today : DateT) :
    wellFormedResult (validateFirstName s) ∧
    wellFormedResult (validateLastName s) ∧
    wellFormedResult (validateEmail s) ∧
    wellFormedResult (validatePassword s) ∧
    wellFormedResult (validateConfirmPassword p cp) ∧
    wellFormedResult (validateTerms b) ∧
    wellFormedResult (validateDateOfBirth dob today) := by
  refine ⟨?_, ?_, ?_, ?_, ?_, ?_, ?_⟩
  · unfold wellFormedResult validateFirstName
    split_ifs <;> simp
  · unfold wellFormedResult validateLastName
    split_ifs <;> simp
  · unfold wellFormedResult validateEmail
    split_ifs <;> simp
  · unfold wellFormedResult validatePassword
    split_ifs <;> simp
  · unfold wellFormedResult validateConfirmPassword
    split_ifs <;> simp
  · unfold wellFormedResult validateTerms
    split_ifs <;> simp
  · unfold wellFormedResult validateDateOfBirth
    cases hp : parseDate dob with
    | none => split_ifs <;> simp
    | some d =>
      by_cases h0 : dob.isEmpty = true
      · simp [h0]
      · rw [if_neg h0]
        simp only []
        split_ifs <;> simp

/-- Witness for C8: the rule-shape property instantiated at concrete field
values and a concrete clock date. -/
theorem C8_rules_shape_witness :
    wellFormedResult (validateEmail "a@gmail.com".data) ∧
    wellFormedResult (validateDateOfBirth "2000-01-02".data ⟨2024, 6, 1⟩) :=
  ⟨(C8_rules_shape "a@gmail.com".data [] [] "2000-01-02".data true ⟨2024, 6, 1⟩).2.2.1,
   (C8_rules_shape "a@gmail.com".data [] [] "2000-01-02".data true ⟨2024, 6, 1⟩).2.2.2.2.2.2⟩

/-- Counterexample refuting C8 as frozen: with the same date-of-birth string,
the rule rejects under the current date 2018-01-01 and accepts under the
current date 2018-01-03, so its verdict is not a function of the string
alone. -/
theorem C8_clock_counterexample :
    (validateDateOfBirth "2000-01-02".data ⟨2018, 1, 1⟩).isValid = false ∧
    (validateDateOfBirth "2000-01-02".data ⟨2018, 1, 3⟩).isValid = true := by decide

/-- findUserByEmail finds a row exactly when one carries the lower-cased
search email. -/
theorem findUserByEmail_isSome (st : Store) (e : List Char) :
    (findUserByEmail st e).isSome = true ↔ ∃ u ∈ st, u.email = e.map lowerChar := by
  unfold findUserByEmail
  simp [List.find?_isSome]

/-- createUser rejects through its own pre-check when the earlier snapshot
already holds the lower-cased email. -/
theorem createUser_dup (hash : List Char → List Char) (checkSt insertSt : Store)
    (input : NormBody) (hf : (findUserByEmail checkSt input.email).isSome = true) :
    createUser hash checkSt insertSt input = Except.error CreateErr.emailRegistered := by
  unfold createUser
  rw [if_pos hf]

/-- createUser appends the row with the email lower-cased and the password
hashed when neither snapshot holds the email. -/
theorem createUser_ok (hash : List Char → List Char) (checkSt insertSt : Store)
    (input : NormBody)
    (h1 : (findUserByEmail checkSt input.email).isSome = false)
    (h2 : (findUserByEmail insertSt input.email).isSome = false) :
    createUser hash checkSt insertSt input =
      Except.ok
        (insertSt ++ [⟨input.firstName, input.lastName, input.email.map lowerChar,
           hash input.password⟩],
         ⟨input.firstName, input.lastName, input.email.map lowerChar,
           hash input.password⟩) := by
  unfold createUser
  rw [if_neg (by simp [h1]), if_neg (by simp [h2])]

/-- C5 (confirmed): when any mirror rule fails on the raw body, the register
route answers 400 with the collected field-message list, the store is
untouched and the gateway create operation is never invoked; when all rules
pass, the body handed downstream carries the trimmed first name, last name
and email with the password unchanged, and the create step decides
duplicates by comparing stored emails against the lower-cased normalized
email, storing it lower-cased on success. -/
theorem C5_mirror_gate (hash : List Char → List Char) (st : Store) (b : RawBody) :
    (∀ errs, validateRegistration b = Except.error errs →
      postRegister hash st st b = (HttpResponse.badRequest errs, st, false)) ∧
    (∀ nb, validateRegistration b = Except.ok nb →
      nb.firstName = trimStr (b.firstName.getD []) ∧
      nb.lastName = trimStr (b.lastName.getD []) ∧
      nb.email = trimStr (b.email.getD []) ∧
      nb.password = b.password.getD [] ∧
      ((∃ u ∈ st, u.email = nb.email.map lowerChar) →
        postRegister hash st st b =
          (HttpResponse.conflict [("email", "This email address is already registered")],
           st, true)) ∧
      ((¬ ∃ u ∈ st, u.email = nb.email.map lowerChar) →
        postRegister hash st st b =
          (HttpResponse.created
             ⟨nb.firstName, nb.lastName, nb.email.map lowerChar, hash nb.password⟩,
           st ++ [⟨nb.firstName, nb.lastName, nb.email.map lowerChar, hash nb.password⟩],
           true))) := by
  constructor
  · intro errs h
    unfold postRegister
    rw [h]
  · intro nb h
    have hb : nb = ⟨trimStr (b.firstName.getD []), trimStr (b.lastName.getD []),
        trimStr (b.email.getD []), b.password.getD []⟩ := by
      unfold validateRegistration at h
      split_ifs at h with hc
      cases h
      rfl
    refine ⟨by rw [hb], by rw [hb], by rw [hb], by rw [hb], ?_, ?_⟩
    · intro hex
      have hf : (findUserByEmail st nb.email).isSome = true :=
        (findUserByEmail_isSome st nb.email).mpr hex
      simp only [postRegister, h, createUser_dup hash st st nb hf]
    · intro hnex
      have hf : (findUserByEmail st nb.email).isSome = false := by
        rw [← Bool.not_eq_true]
        exact fun hh => hnex ((findUserByEmail_isSome st nb.email).mp hh)
      simp only [postRegister, h, createUser_ok hash st st nb hf hf]

/-- Witness for C5: a too-short first name is answered 400 without touching
the store, and a fully valid body is created with trimmed fields and a
lower-cased stored email. -/
theorem C5_mirror_gate_witness :
    postRegister (fun p => p) [] []
      ⟨some "J".data, some "Doe".data, some "john@gmail.com".data, some "Password1!".data⟩ =
      (HttpResponse.badRequest [("firstName", "First name must be at least 2 characters")],
       [], false) ∧
    postRegister (fun p => p) [] []
      ⟨some " Jane ".data, some "Doe".data, some " JANE@gmail.com ".data,
       some "Password1!".data⟩ =
      (HttpResponse.created
         ⟨"Jane".data, "Doe".data, "jane@gmail.com".data, "Password1!".data⟩,
       [⟨"Jane".data, "Doe".data, "jane@gmail.com".data, "Password1!".data⟩], true) :=
  ⟨(C5_mirror_gate (fun p => p) [] _).1 _ (by decide),
   by
    have h := ((C5_mirror_gate (fun p => p) []
      ⟨some " Jane ".data, some "Doe".data, some " JANE@gmail.com ".data,
       some "Password1!".data⟩).2
      ⟨"Jane".data, "Doe".data, "JANE@gmail.com".data, "Password1!".data⟩
      (by decide)).2.2.2.2.2 (by decide)
    exact h.trans (by decide)⟩

/-- C9 (code bug witnessed): after the pre-check of createUser passed against
the earlier snapshot, an insert-time unique-constraint violation caused by a
concurrent create of the same normalized email surfaces as the raw error and
the route answers the generic 500, not the 409 duplicate shape it produces
when its own pre-check detects the duplicate. -/
theorem C9_insert_race_raw_error :
    postRegister (fun _ => "hash".data)
      []
      [⟨"John".data, "Doe".data, "john@gmail.com".data, "hash".data⟩]
      ⟨some "Jane".data, some "Doe".data, some "JOHN@gmail.com".data,
       some "Password1!".data⟩ =
      (HttpResponse.serverError,
       [⟨"John".data, "Doe".data, "john@gmail.com".data, "hash".data⟩], true) ∧
    postRegister (fun _ => "hash".data)
      [⟨"John".data, "Doe".data, "john@gmail.com".data, "hash".data⟩]
      [⟨"John".data, "Doe".data, "john@gmail.com".data, "hash".data⟩]
      ⟨some "Jane".data, some "Doe".data, some "JOHN@gmail.com".data,
       some "Password1!".data⟩ =
      (HttpResponse.conflict [("email", "This email address is already registered")],
       [⟨"John".data, "Doe".data, "john@gmail.com".data, "hash".data⟩], true) := by decide

/-- C10 (confirmed): the delete route lower-cases its email parameter before
the delete, so it answers 200 exactly when some stored row carries the
lower-cased parameter as its email, removes exactly those rows, keeps every
other row, and answers 404 exactly when no such row exists. -/
theorem C10_delete_case_insensitive (st : Store) (e : List Char) :
    ((deleteRoute st e).1 = DeleteResponse.ok200 ↔
      ∃ u ∈ st, u.email = e.map lowerChar) ∧
    ((deleteRoute st e).1 = DeleteResponse.notFound404 ↔
      ¬ ∃ u ∈ st, u.email = e.map lowerChar) ∧
    (∀ u ∈ st, u.email = e.map lowerChar → u ∉ (deleteRoute st e).2) ∧
    (∀ u ∈ st, u.email ≠ e.map lowerChar → u ∈ (deleteRoute st e).2) := by
  unfold deleteRoute deleteUserByEmail
  by_cases hd : st.any (fun u => u.email == e.map lowerChar) = true
  · have hex := List.any_eq_true.mp hd
    simp only [hd, if_true]
    refine ⟨?_, ?_, ?_, ?_⟩
    · simp only [true_iff]
      obtain ⟨u, hu, he⟩ := hex
      exact ⟨u, hu, by simpa using he⟩
    · constructor
      · intro hh
        cases hh
      · intro hh
        obtain ⟨u, hu, he⟩ := hex
        exact absurd ⟨u, hu, by simpa using he⟩ hh
    · intro u hu he
      simp [List.mem_filter, he]
    · intro u hu he
      simp [List.mem_filter, hu, he]
  · simp only [hd, if_false]
    have hnex : ¬ ∃ u ∈ st, u.email = e.map lowerChar := by
      intro ⟨u, hu, he⟩
      exact hd (List.any_eq_true.mpr ⟨u, hu, by simpa using he⟩)
    refine ⟨?_, ?_, ?_, ?_⟩
    · constructor
      · intro hh
        cases hh
      · intro hh
        exact absurd hh hnex
    · simp [hnex]
    · intro u hu he
      exact absurd ⟨u, hu, he⟩ hnex
    · intro u hu _
      exact hu

/-- Witness for C10: a differently-cased parameter deletes the stored
lower-cased user and answers 200. -/
theorem C10_delete_witness :
    (deleteRoute [⟨"John".data, "Doe".data, "john@gmail.com".data, "h".data⟩]
       "JOHN@GMAIL.COM".data).1 = DeleteResponse.ok200 :=
  (C10_delete_case_insensitive _ _).1.mpr
    ⟨⟨"John".data, "Doe".data, "john@gmail.com".data, "h".data⟩, by decide, by decide⟩

end Reg

